import Mathlib

/-!
Verification of the email-downloader concurrent fetch engine.

Shallow embedding of the Python sources `email_downloader.py`,
`imap_client.py` and `utils.py`: pure fragments become Lean functions,
the stateful orchestrator counters become a step relation, and the
outcome of external I/O (IMAP replies, key presses) is passed in as
explicit data.  Strings are Lean `String`s; Python byte strings (UIDs,
message bodies) are modelled as `String` / `List Nat`.
-/

/-! ## String helpers (Python `in`, `lower`, `upper`, slicing) -/

/-- `startsWithChars needle hay` : does `hay` begin with `needle`?
(Python `str.startswith`, at the character-list level). -/
def startsWithChars : List Char → List Char → Bool
  | [], _ => true
  | _ :: _, [] => false
  | a :: as, b :: bs => a = b && startsWithChars as bs

/-- `hasSubChars needle hay` : does `needle` occur contiguously in `hay`?
(Python `needle in hay` on strings, at the character-list level). -/
def hasSubChars (needle : List Char) : List Char → Bool
  | [] => needle.isEmpty
  | c :: t => startsWithChars needle (c :: t) || hasSubChars needle t

/-- Python `needle in hay` for `String`s. -/
def strContains (hay needle : String) : Bool :=
  hasSubChars needle.data hay.data

/-- Python `str.lower()`, modelled on the ASCII range (the substrings the
code compares against are all ASCII). -/
def strLower (s : String) : String :=
  String.mk (s.data.map Char.toLower)

/-- Python `str.upper()`, modelled on the ASCII range. -/
def strUpper (s : String) : String :=
  String.mk (s.data.map Char.toUpper)

/-- Python `s[n:]` : drop the first `n` characters. -/
def strDrop (n : Nat) (s : String) : String :=
  String.mk (s.data.drop n)

/-! ## C6 — `AutoIMAPClient.list_folders` folder filter

`imap_client.py` lines 121-167: each server reply line is parsed to a
folder name; a name is skipped when its lowercase form contains
spam/junk/bulk without trash, or contains an all-mail alias; surviving
names are appended in server order.  The embedding takes the list of
parsed names (the regex/unquoting stage yields them in server order). -/

/-- The loop body of `list_folders` over the parsed folder names,
mirroring the two `continue` filters of the source. -/
def list_folders_filter : List String → List String
  | [] => []
  | name :: rest =>
    let lower_name := strLower name
    if (strContains lower_name "spam" || strContains lower_name "junk"
          || strContains lower_name "bulk")
        && !(strContains lower_name "trash") then
      list_folders_filter rest
    else if strContains lower_name "todos os e-mails"
        || strContains lower_name "all mail" then
      list_folders_filter rest
    else
      name :: list_folders_filter rest

/-- The exclusion predicate exactly as the claim words it: excluded iff
the lowercased name contains spam/junk/bulk while not containing trash,
or contains an all-mail alias. -/
def claimExcluded (name : String) : Bool :=
  let l := strLower name
  ((strContains l "spam" || strContains l "junk" || strContains l "bulk")
      && !(strContains l "trash"))
  || strContains l "all mail" || strContains l "todos os e-mails"

/-! ## C2 / C9 — `download_email_task` dedup logic

`email_downloader.py` lines 68-146.  The fragment from the dedup block
onwards (lines 98-137) is pure given the two server replies it consumes:
the `fetch_message_id` result and the `fetch_email_content` result. -/

/-- Result of one `download_email_task` call: the returned pair
`(success, error_message)` plus whether `fetch_email_content` was called,
whether a file was written, and the dedup set afterwards. -/
structure TaskOutcome where
  success : Bool
  note : Option String
  bodyFetched : Bool
  fileWritten : Bool
  seen : List String
  deriving DecidableEq, Repr

/-- Python truthiness of the `fetch_message_id` reply (`if msg_id:`):
`None` and the empty string are falsy. -/
def truthyOpt : Option String → Bool
  | none => false
  | some s => !(s == "")

/-- Lines 112-137: fetch the body and, when non-empty, write the `.eml`
file.  `body = none` models both an absent and an empty (falsy) RFC822
reply. -/
def fetchAndWrite (seen : List String) (body : Option (List Nat)) (uid : String) : TaskOutcome :=
  match body with
  | some _ =>
    { success := true, note := none, bodyFetched := true, fileWritten := true, seen := seen }
  | none =>
    { success := false, note := some ("Empty content (UID: " ++ uid ++ ")"),
      bodyFetched := true, fileWritten := false, seen := seen }

/-- Lines 98-137 of `email_downloader.py`, for a task whose folder
selection succeeded and whose dedup arguments are not `None`: test the
`fetch_message_id` reply against the shared `seen_ids` set, insert it
when new, and proceed to the body fetch unless it was a duplicate. -/
def download_email_task (seen : List String) (msg_id : Option String)
    (body : Option (List Nat)) (uid : String) : TaskOutcome :=
  if truthyOpt msg_id then
    let m := msg_id.getD ""
    if m ∈ seen then
      { success := true, note := some "SKIPPED", bodyFetched := false,
        fileWritten := false, seen := seen }
    else
      fetchAndWrite (m :: seen) body uid
  else
    fetchAndWrite seen body uid

/-! ## C3 — retry rounds

`email_downloader.py` lines 580-658. -/

/-- A download task as tracked by the orchestrator: (folder, UID). -/
abbrev DLTask := String × String

/-- One retry round (lines 613-650): exactly the current `failed_tasks`
list is resubmitted; the round's callbacks put into `new_failed` exactly
the submitted tasks whose wrapper result was unsuccessful (or raised).
Callback completion order is immaterial for the set-level claims, so the
collection is modelled in submission order. -/
def runRetryRound (success : DLTask → Bool) (failed : List DLTask) : List DLTask :=
  failed.filter (fun t => !success t)

/-- Iterated automatic retry rounds: round `n+1` resubmits round `n`'s
failures (`failed_tasks = new_failed`, line 650). -/
def retryRounds (succ : Nat → DLTask → Bool) (failed0 : List DLTask) : Nat → List DLTask
  | 0 => failed0
  | n + 1 => runRetryRound (succ n) (retryRounds succ failed0 n)

/-- Line 593: `timeout_val = 60 * (retry_attempt + 1)`, where
`retry_attempt` starts at 0 and is incremented after each automatic
round is entered. -/
def autoRetryTimeout (retry_attempt : Nat) : Nat := 60 * (retry_attempt + 1)

/-! ## C1 — orchestrator counters

`email_downloader.py`: `pbar.total` grows by the size of each scanned
batch before its tasks are submitted (lines 470, 505); every submitted
future gets exactly one effective `download_done_callback` invocation
(the `handled` flag, lines 362-403) which increments exactly one of
`downloaded_count` / `skipped_count` / `failed_tasks`; a retry round
(lines 613-653) moves `recovered = len(failed_tasks) - len(new_failed)`
tasks from failed to downloaded.  Lines 665-667 compute the summary. -/

/-- The orchestrator's shared counters, plus `outstanding`: the number of
enqueued tasks whose done-callback has not (yet) fired — at the end of a
cancelled run these are the never-completed tasks. -/
structure Counters where
  total : Nat
  downloaded : Nat
  skipped : Nat
  failed : Nat
  outstanding : Nat
  deriving DecidableEq, Repr

/-- One atomic transition of the counter state.  A done-callback fires
only for a previously enqueued task (`0 < outstanding`); each fires
exactly once (the `handled` flag under `count_lock`).  A retry round
resubmits the failed tasks and collects at most as many new failures. -/
inductive CounterStep : Counters → Counters → Prop
  | enqueue (c : Counters) :
      CounterStep c { c with total := c.total + 1, outstanding := c.outstanding + 1 }
  | doneDownloaded (c : Counters) (h : 0 < c.outstanding) :
      CounterStep c { c with downloaded := c.downloaded + 1, outstanding := c.outstanding - 1 }
  | doneSkipped (c : Counters) (h : 0 < c.outstanding) :
      CounterStep c { c with skipped := c.skipped + 1, outstanding := c.outstanding - 1 }
  | doneFailed (c : Counters) (h : 0 < c.outstanding) :
      CounterStep c { c with failed := c.failed + 1, outstanding := c.outstanding - 1 }
  | retryRound (c : Counters) (newFailed : Nat) (h : newFailed ≤ c.failed) :
      CounterStep c { c with downloaded := c.downloaded + (c.failed - newFailed),
                             failed := newFailed }

/-- Counter states reachable from the all-zero initial state by any
interleaving of enqueues, done-callbacks and retry rounds. -/
inductive CounterReachable : Counters → Prop
  | init : CounterReachable ⟨0, 0, 0, 0, 0⟩
  | step {c c' : Counters} :
      CounterReachable c → CounterStep c c' → CounterReachable c'

/-- Lines 665-667: `remaining_count = max(0, total_items -
(downloaded_count + skipped_count + len(failed_tasks)))`; Nat
subtraction is exactly this truncated difference. -/
def remainingCount (c : Counters) : Nat :=
  c.total - (c.downloaded + c.skipped + c.failed)

/-! ## C5 — `AutoIMAPClient.connect`

`imap_client.py` lines 83-119. -/

/-- A live connection object (the value of `self.connection` when it is
not `None`): the host it reached and whether `login` succeeded on it. -/
structure IMAPConn where
  host : String
  authed : Bool
  deriving DecidableEq, Repr

/-- The `AutoIMAPClient` attributes that `connect` touches. -/
structure ClientState where
  connection : Option IMAPConn
  server_address : Option String
  connection_attempts : List (String × String)
  deriving DecidableEq, Repr

/-- What one candidate server attempt does: `estabFail` = the
`IMAP4_SSL`/`IMAP4` constructor raised, so the assignment to
`self.connection` never happened; `loginFail` = the constructor
succeeded (assigning `self.connection` a live, unauthenticated
connection) and then `login` raised; `ok` = both succeeded. -/
inductive AttemptOutcome
  | estabFail (err : String)
  | loginFail (err : String)
  | ok
  deriving DecidableEq, Repr

/-- The `for server in potential_servers` loop of `connect` (lines
97-119): failures are recorded in `connection_attempts` and the loop
continues; the first full success pins `server_address` and returns
True; exhaustion returns False. -/
def connectLoop : List (String × AttemptOutcome) → ClientState → Bool × ClientState
  | [], st => (false, st)
  | (server, AttemptOutcome.estabFail err) :: rest, st =>
      connectLoop rest
        { st with connection_attempts := st.connection_attempts ++ [(server, err)] }
  | (server, AttemptOutcome.loginFail err) :: rest, st =>
      connectLoop rest
        { st with connection := some ⟨server, false⟩,
                  connection_attempts := st.connection_attempts ++ [(server, err)] }
  | (server, AttemptOutcome.ok) :: _, st =>
      (true, { st with connection := some ⟨server, true⟩,
                       server_address := some server })

/-- `AutoIMAPClient.connect` (lines 83-119): resets
`connection_attempts` (line 95), then walks the candidate list. -/
def connect (candidates : List (String × AttemptOutcome)) (st : ClientState) :
    Bool × ClientState :=
  connectLoop candidates { st with connection_attempts := [] }

/-! ## C4 — on-disk folder segment

`utils.py` lines 10-15 (`sanitize_filename`) and `email_downloader.py`
lines 119-131 (INBOX-prefix stripping before sanitation). -/

/-- Python's `\w` for `str` regex patterns, which is Unicode-aware:
alphanumeric characters (as by `str.isalnum`) plus the underscore.
Modelled exactly on code points up to U+00FF (ASCII word characters,
plus the Latin-1 letters and numeric signs); code points above U+00FF —
overwhelmingly letters in real folder names — are treated as word
characters, and no theorem below evaluates the model there. -/
def pyWordChar (c : Char) : Bool :=
  let v := c.toNat
  if v < 0x80 then
    decide (('A' ≤ c ∧ c ≤ 'Z') ∨ ('a' ≤ c ∧ c ≤ 'z') ∨ ('0' ≤ c ∧ c ≤ '9') ∨ c = '_')
  else
    decide (v = 0xAA ∨ v = 0xB5 ∨ v = 0xBA ∨ v = 0xB2 ∨ v = 0xB3 ∨ v = 0xB9
      ∨ (0xBC ≤ v ∧ v ≤ 0xBE)
      ∨ (0xC0 ≤ v ∧ v ≤ 0xFF ∧ v ≠ 0xD7 ∧ v ≠ 0xF7)
      ∨ 0x100 ≤ v)

/-- The substitution `re.sub(r'[^\w\-\.]', '_', ...)` at one character:
word characters, `-` and `.` are kept, everything else becomes `_`. -/
def pySanitizeChar (c : Char) : Char :=
  if pyWordChar c || c == '-' || c == '.' then c else '_'

/-- `utils.sanitize_filename`. -/
def sanitize_filename (s : String) : String :=
  String.mk (s.data.map pySanitizeChar)

/-- Lines 119-131 of `email_downloader.py`: uppercase the folder name
(`str.upper`, ASCII model), strip the first 6 characters when the
uppercased name starts with `INBOX.` or `INBOX/`, then sanitize. -/
def displayFolderSegment (folder : String) : String :=
  let upper_folder := strUpper folder
  let display_folder :=
    if startsWithChars "INBOX.".data upper_folder.data
        || startsWithChars "INBOX/".data upper_folder.data then
      strDrop 6 folder
    else folder
  sanitize_filename display_folder

/-- Character equality up to case, for the claim's "matched
case-insensitively". -/
def eqCaseInsensitive (a b : Char) : Bool :=
  a.toLower == b.toLower

/-- `startsWithCI needle hay` : does `hay` begin with `needle` up to
case? -/
def startsWithCI : List Char → List Char → Bool
  | [], _ => true
  | _ :: _, [] => false
  | a :: as, b :: bs => eqCaseInsensitive a b && startsWithCI as bs

/-- The claim's character rule: keep exactly `[A-Za-z0-9._-]`, replace
everything else with `_`. -/
def claimKeepChar (c : Char) : Bool :=
  decide ((('A' ≤ c ∧ c ≤ 'Z') ∨ ('a' ≤ c ∧ c ≤ 'z') ∨ ('0' ≤ c ∧ c ≤ '9'))
    ∨ c = '.' ∨ c = '_' ∨ c = '-')

/-- The claim's per-character sanitation. -/
def claimSanitizeChar (c : Char) : Char :=
  if claimKeepChar c then c else '_'

/-- The on-disk segment exactly as the claim words it: strip a leading
`INBOX.` or `INBOX/` prefix matched case-insensitively, then apply the
`[A-Za-z0-9._-]` rule to every character. -/
def claimFolderSegment (folder : String) : String :=
  let stripped :=
    if startsWithCI "INBOX.".data folder.data
        || startsWithCI "INBOX/".data folder.data then
      strDrop 6 folder
    else folder
  String.mk (stripped.data.map claimSanitizeChar)

/-- The seven characters occurring in the stripped prefixes. -/
def inboxPrefixChars : List Char := ['I', 'N', 'B', 'O', 'X', '.', '/']

/-! ## C7 — `fetch_email_ids` search criteria

`imap_client.py` lines 187-222. -/

/-- A calendar date as the `datetime` values reaching `strftime`. -/
structure PyDate where
  year : Nat
  month : Nat
  day : Nat
  deriving DecidableEq, Repr

/-- English month abbreviations produced by `strftime("%b")` in the C
locale (month 1 = "Jan"). -/
def monthAbbrev : Nat → String
  | 1 => "Jan"
  | 2 => "Feb"
  | 3 => "Mar"
  | 4 => "Apr"
  | 5 => "May"
  | 6 => "Jun"
  | 7 => "Jul"
  | 8 => "Aug"
  | 9 => "Sep"
  | 10 => "Oct"
  | 11 => "Nov"
  | 12 => "Dec"
  | _ => ""

/-- Zero padding of `strftime` numeric fields. -/
def padNum (width n : Nat) : String :=
  let s := toString n
  String.mk (List.replicate (width - s.length) '0') ++ s

/-- `strftime("%d-%b-%Y")` (lines 202 and 206). -/
def fmtImapDate (d : PyDate) : String :=
  padNum 2 d.day ++ "-" ++ monthAbbrev d.month ++ "-" ++ padNum 4 d.year

/-- Python `' '.join(parts)`. -/
def joinSpace : List String → String
  | [] => ""
  | [s] => s
  | s :: rest => s ++ " " ++ joinSpace rest

/-- Lines 198-212: the `criteria_str` built by `fetch_email_ids` — note
the source wraps each dated criterion in parentheses. -/
def buildSearchCriteria (sd ed : Option PyDate) : String :=
  let cs : List String :=
    (match sd with
      | some d => ["(SINCE \"" ++ fmtImapDate d ++ "\")"]
      | none => [])
    ++
    (match ed with
      | some d => ["(BEFORE \"" ++ fmtImapDate d ++ "\")"]
      | none => [])
  let cs := if cs.isEmpty then ["ALL"] else cs
  joinSpace cs

/-- The search command issued on line 216:
`self.connection.uid('search', None, criteria_str)`. -/
structure SearchCommand where
  viaUid : Bool
  criteria : String
  deriving DecidableEq, Repr

/-- `fetch_email_ids`'s search step as the command it sends. -/
def fetch_email_ids_search (sd ed : Option PyDate) : SearchCommand :=
  { viaUid := true, criteria := buildSearchCriteria sd ed }

/-- The criteria string exactly as the claim words it: `SINCE
"DD-Mon-YYYY"` / `BEFORE "DD-Mon-YYYY"` without parentheses, joined by a
single space, `ALL` when no bound is set. -/
def claimSearchCriteria (sd ed : Option PyDate) : String :=
  match sd, ed with
  | some s, none => "SINCE \"" ++ fmtImapDate s ++ "\""
  | none, some e => "BEFORE \"" ++ fmtImapDate e ++ "\""
  | some s, some e =>
    "SINCE \"" ++ fmtImapDate s ++ "\"" ++ " " ++ "BEFORE \"" ++ fmtImapDate e ++ "\""
  | none, none => "ALL"

/-! ## C8 — `timed_input`

`email_downloader.py` lines 16-34: the `while True` loop polls
`msvcrt.kbhit()`; `start_time` is recorded but never consulted, and the
`timeout` parameter is never used. -/

/-- The `while True` loop of `timed_input`: `keys n` is the character
delivered by `getwche()` when `kbhit()` is true at iteration `n`, `none`
when no key is pending then.  `fuel` bounds the number of iterations
observed; `none` means the loop is still running after `fuel`
iterations.  Mirroring the source, the loop body contains no check of
the timeout. -/
def timedInputLoop (keys : Nat → Option Char) (default : String) :
    Nat → Nat → String → Option String
  | 0, _, _ => none
  | fuel + 1, n, input_char =>
    match keys n with
    | none => timedInputLoop keys default fuel (n + 1) input_char
    | some c =>
      if c = '\r' ∨ c = '\n' then
        some (if input_char = "" then default else input_char)
      else
        some (input_char ++ c.toString)

/-- `timed_input(prompt, timeout, default)`: the `timeout` argument is
bound but, like `start_time`, never consulted by the loop. -/
def timed_input (keys : Nat → Option Char) (timeout : Nat) (default : String)
    (fuel : Nat) : Option String :=
  timedInputLoop keys default fuel 0 ""

/-! ## C10 — session operations with no connection

`imap_client.py`: the `if not self.connection` guards of `list_folders`
(126-127), `fetch_email_ids` (191-192), `fetch_message_id` (226-227) and
`fetch_email_content` (251-252).  Each embedding returns the method's
result together with a flag recording whether any server I/O was
attempted; the server's replies are passed in as data for the connected
branch. -/

/-- A Python call result: a returned value or a raised exception. -/
inductive PyResult (α : Type)
  | ok (val : α)
  | exn (msg : String)
  deriving DecidableEq, Repr

/-- `list_folders` (lines 121-167): with no connection it returns `[]`;
connected, it runs the parse-and-filter pipeline over the parsed names
of the server's LIST reply (empty when the reply status is not OK). -/
def list_folders_run (conn : Option IMAPConn) (replyOk : Bool)
    (parsedNames : List String) : PyResult (List String) × Bool :=
  match conn with
  | none => (PyResult.ok [], false)
  | some _ =>
    (PyResult.ok (if replyOk then list_folders_filter parsedNames else []), true)

/-- `fetch_message_id` (lines 224-245): with no connection it returns
`None`. -/
def fetch_message_id_run (conn : Option IMAPConn) (reply : Option String) :
    PyResult (Option String) × Bool :=
  match conn with
  | none => (PyResult.ok none, false)
  | some _ => (PyResult.ok reply, true)

/-- `fetch_email_ids` (lines 187-222): with no connection it raises
`RuntimeError("Not connected to IMAP server.")`. -/
def fetch_email_ids_run (conn : Option IMAPConn) (reply : List String) :
    PyResult (List String) × Bool :=
  match conn with
  | none => (PyResult.exn "Not connected to IMAP server.", false)
  | some _ => (PyResult.ok reply, true)

/-- `fetch_email_content` (lines 247-266): with no connection it raises
`RuntimeError("Not connected.")`. -/
def fetch_email_content_run (conn : Option IMAPConn) (reply : Option (List Nat)) :
    PyResult (Option (List Nat)) × Bool :=
  match conn with
  | none => (PyResult.exn "Not connected.", false)
  | some _ => (PyResult.ok reply, true)

/-! # Theorems -/

/-! ## C6 -/

/-- C6: `list_folders` returns, in the order the server returned them,
exactly those parsed folder names that are not excluded, where a name is
excluded iff its lowercased form contains "spam", "junk" or "bulk" while
not containing "trash", or contains an all-mail alias ("all mail" or
"todos os e-mails"). -/
theorem list_folders_is_order_preserving_exclusion_filter (names : List String) :
    list_folders_filter names = names.filter (fun n => !claimExcluded n) := by
  induction names with
  | nil => rfl
  | cons name rest ih =>
    simp only [list_folders_filter, List.filter_cons]
    cases ha : strContains (strLower name) "spam" <;>
    cases hb : strContains (strLower name) "junk" <;>
    cases hc : strContains (strLower name) "bulk" <;>
    cases hd : strContains (strLower name) "trash" <;>
    cases he : strContains (strLower name) "todos os e-mails" <;>
    cases hf : strContains (strLower name) "all mail" <;>
    simp [claimExcluded, ha, hb, hc, hd, he, hf, ih]

/-! ## C2 -/

/-- C2: when the Message-ID fetch returns a non-empty value already in
the dedup set at test-and-insert time, the outcome is Skipped-Duplicate
(`(True, "SKIPPED")`) with no body fetch, no file write and the set
unchanged; when the value is new it is inserted and the task proceeds to
the body fetch; when the fetch returns none the task proceeds to the
body fetch. -/
theorem dedup_test_and_insert_semantics (seen : List String) (m : String)
    (body : Option (List Nat)) (uid : String) (hm : m ≠ "") :
    (m ∈ seen →
      download_email_task seen (some m) body uid =
        { success := true, note := some "SKIPPED", bodyFetched := false,
          fileWritten := false, seen := seen })
    ∧ (m ∉ seen →
      (download_email_task seen (some m) body uid).seen = m :: seen
      ∧ (download_email_task seen (some m) body uid).bodyFetched = true)
    ∧ (download_email_task seen none body uid).bodyFetched = true := by
  refine ⟨?_, ?_, ?_⟩
  · intro hmem
    simp [download_email_task, truthyOpt, hm, hmem]
  · intro hmem
    constructor <;>
      · simp only [download_email_task, truthyOpt]
        simp [hm, hmem]
        cases body <;> simp [fetchAndWrite]
  · cases body <;> simp [download_email_task, truthyOpt, fetchAndWrite]

/-- Witness for C2 at concrete inputs: a duplicate Message-ID is
skipped. -/
theorem dedup_test_and_insert_semantics_witness :
    download_email_task ["<a@x>"] (some "<a@x>") (some [1]) "7" =
      { success := true, note := some "SKIPPED", bodyFetched := false,
        fileWritten := false, seen := ["<a@x>"] } :=
  (dedup_test_and_insert_semantics ["<a@x>"] "<a@x>" (some [1]) "7"
    (by decide)).1 (by simp)

/-! ## C3 -/

/-- C3: each retry round's new failed set is a subset of the tasks
submitted in that round (which are exactly the previous round's
failures), a task that succeeded in round `n` is not re-attempted in
round `n+1`, and the per-round timeout of automatic round `i` (counting
from 1, i.e. entered with `retry_attempt = i - 1`) is `60 * i`
seconds. -/
theorem retry_rounds_monotone_and_timeout (succ : Nat → DLTask → Bool)
    (failed0 : List DLTask) (n : Nat) (i : Nat) (hi : 1 ≤ i) :
    retryRounds succ failed0 (n + 1) ⊆ retryRounds succ failed0 n
    ∧ (∀ t ∈ retryRounds succ failed0 n, succ n t = true →
        t ∉ retryRounds succ failed0 (n + 1))
    ∧ autoRetryTimeout (i - 1) = 60 * i := by
  refine ⟨?_, ?_, ?_⟩
  · exact List.filter_subset' _
  · intro t _ hs hmem
    have hkeep := List.of_mem_filter hmem
    simp [hs] at hkeep
  · unfold autoRetryTimeout
    omega

/-- Witness for C3: two tasks, of which the first succeeds in round 0;
instantiated at automatic round `i = 3`. -/
theorem retry_rounds_monotone_and_timeout_witness :
    retryRounds (fun _ t => t.2 == "1") [("INBOX", "1"), ("INBOX", "2")] (0 + 1)
        ⊆ retryRounds (fun _ t => t.2 == "1") [("INBOX", "1"), ("INBOX", "2")] 0
    ∧ (∀ t ∈ retryRounds (fun _ t => t.2 == "1") [("INBOX", "1"), ("INBOX", "2")] 0,
        (fun (_ : Nat) (t : DLTask) => t.2 == "1") 0 t = true →
        t ∉ retryRounds (fun _ t => t.2 == "1") [("INBOX", "1"), ("INBOX", "2")] (0 + 1))
    ∧ autoRetryTimeout (3 - 1) = 60 * 3 :=
  retry_rounds_monotone_and_timeout (fun _ t => t.2 == "1")
    [("INBOX", "1"), ("INBOX", "2")] 0 3 (by decide)

/-! ## C9 -/

/-- C9: after a first attempt that inserted the task's Message-ID into
the dedup set but then failed the body fetch, a retry of the same task
(the dedup set having persisted) finds the ID present, returns
Skipped-Duplicate without writing a file, and the retry round's
accounting counts it as recovered: it does not appear in the round's new
failed list. -/
theorem failed_insert_then_retry_skips (seen : List String) (m : String)
    (body2 : Option (List Nat)) (uid : String) (t : DLTask)
    (hm : m ≠ "") (hmem : m ∉ seen) :
    (download_email_task seen (some m) none uid).success = false
    ∧ (download_email_task seen (some m) none uid).fileWritten = false
    ∧ (download_email_task seen (some m) none uid).seen = m :: seen
    ∧ (download_email_task (m :: seen) (some m) body2 uid).success = true
    ∧ (download_email_task (m :: seen) (some m) body2 uid).note = some "SKIPPED"
    ∧ (download_email_task (m :: seen) (some m) body2 uid).fileWritten = false
    ∧ (download_email_task (m :: seen) (some m) body2 uid).seen = m :: seen
    ∧ runRetryRound
        (fun _ => (download_email_task (m :: seen) (some m) body2 uid).success)
        [t] = [] := by
  have h1 : download_email_task seen (some m) none uid =
      fetchAndWrite (m :: seen) none uid := by
    simp [download_email_task, truthyOpt, hm, hmem]
  have h2 : download_email_task (m :: seen) (some m) body2 uid =
      { success := true, note := some "SKIPPED", bodyFetched := false,
        fileWritten := false, seen := m :: seen } := by
    simp [download_email_task, truthyOpt, hm]
  refine ⟨?_, ?_, ?_, ?_, ?_, ?_, ?_, ?_⟩ <;>
    simp [h1, h2, fetchAndWrite, runRetryRound]

/-- Witness for C9 at concrete inputs. -/
theorem failed_insert_then_retry_skips_witness :
    (download_email_task [] (some "<a@x>") none "4").success = false
    ∧ (download_email_task [] (some "<a@x>") none "4").fileWritten = false
    ∧ (download_email_task [] (some "<a@x>") none "4").seen = ["<a@x>"]
    ∧ (download_email_task ["<a@x>"] (some "<a@x>") (some [0]) "4").success = true
    ∧ (download_email_task ["<a@x>"] (some "<a@x>") (some [0]) "4").note = some "SKIPPED"
    ∧ (download_email_task ["<a@x>"] (some "<a@x>") (some [0]) "4").fileWritten = false
    ∧ (download_email_task ["<a@x>"] (some "<a@x>") (some [0]) "4").seen = ["<a@x>"]
    ∧ runRetryRound
        (fun _ => (download_email_task ["<a@x>"] (some "<a@x>") (some [0]) "4").success)
        [("INBOX", "4")] = [] :=
  failed_insert_then_retry_skips [] "<a@x>" (some [0]) "4" ("INBOX", "4")
    (by decide) (by simp)

/-! ## C1 -/

/-- Helper invariant: in every reachable counter state the four buckets
and the outstanding tasks account exactly for the enqueued total. -/
theorem counter_buckets_invariant {c : Counters} (h : CounterReachable c) :
    c.downloaded + c.skipped + c.failed + c.outstanding = c.total := by
  induction h with
  | init => rfl
  | step _ hs ih =>
    cases hs <;> simp_all <;> omega

/-- C1: for every run that terminates with status Completed or Cancelled
(any reachable final counter state), `downloaded + skipped + len(failed)
+ remaining = total enqueued`: every enqueued task is counted in exactly
one bucket, cancellation leaving never-completed tasks in remaining. -/
theorem counters_conservation {c : Counters} (h : CounterReachable c) :
    c.downloaded + c.skipped + c.failed + remainingCount c = c.total := by
  have hinv := counter_buckets_invariant h
  unfold remainingCount
  omega

/-- Witness for C1: enqueue three tasks, complete one as downloaded and
one as failed, run a retry round that recovers the failure, then cancel
with one task outstanding. -/
theorem counters_conservation_witness :
    (⟨3, 2, 0, 0, 1⟩ : Counters).downloaded + (⟨3, 2, 0, 0, 1⟩ : Counters).skipped
      + (⟨3, 2, 0, 0, 1⟩ : Counters).failed + remainingCount ⟨3, 2, 0, 0, 1⟩
      = (⟨3, 2, 0, 0, 1⟩ : Counters).total := by
  have h0 : CounterReachable ⟨0, 0, 0, 0, 0⟩ := CounterReachable.init
  have h1 : CounterReachable ⟨1, 0, 0, 0, 1⟩ :=
    CounterReachable.step h0 (CounterStep.enqueue _)
  have h2 : CounterReachable ⟨2, 0, 0, 0, 2⟩ :=
    CounterReachable.step h1 (CounterStep.enqueue _)
  have h3 : CounterReachable ⟨3, 0, 0, 0, 3⟩ :=
    CounterReachable.step h2 (CounterStep.enqueue _)
  have h4 : CounterReachable ⟨3, 1, 0, 0, 2⟩ :=
    CounterReachable.step h3 (CounterStep.doneDownloaded _ (by decide))
  have h5 : CounterReachable ⟨3, 1, 0, 1, 1⟩ :=
    CounterReachable.step h4 (CounterStep.doneFailed _ (by decide))
  have h6 : CounterReachable ⟨3, 2, 0, 0, 1⟩ :=
    CounterReachable.step h5 (CounterStep.retryRound _ 0 (by decide))
  exact counters_conservation h6

/-! ## C5 -/

/-- Helper: walking the candidate loop to failure never installs an
authenticated connection — the handle is either untouched or points at
an unauthenticated connection from some login-failed candidate. -/
theorem connectLoop_failure_connection (candidates : List (String × AttemptOutcome))
    (st : ClientState) (hfail : (connectLoop candidates st).1 = false) :
    (connectLoop candidates st).2.server_address = st.server_address
    ∧ ((connectLoop candidates st).2.connection = st.connection
        ∨ ∃ server err, (server, AttemptOutcome.loginFail err) ∈ candidates
            ∧ (connectLoop candidates st).2.connection = some ⟨server, false⟩) := by
  induction candidates generalizing st with
  | nil => exact ⟨rfl, Or.inl rfl⟩
  | cons cand rest ih =>
    obtain ⟨server, outcome⟩ := cand
    cases outcome with
    | estabFail err =>
      have h := ih _ (by simpa [connectLoop] using hfail)
      refine ⟨h.1, ?_⟩
      rcases h.2 with h2 | ⟨s, e, hmem, hconn⟩
      · exact Or.inl h2
      · exact Or.inr ⟨s, e, List.mem_cons_of_mem _ hmem, hconn⟩
    | loginFail err =>
      have h := ih _ (by simpa [connectLoop] using hfail)
      refine ⟨h.1, Or.inr ?_⟩
      rcases h.2 with h2 | ⟨s, e, hmem, hconn⟩
      · exact ⟨server, err, List.mem_cons_self _ _, h2⟩
      · exact ⟨s, e, List.mem_cons_of_mem _ hmem, hconn⟩
    | ok =>
      simp [connectLoop] at hfail

/-- C5 counterexample: a fresh client (connection handle `none`) whose
single candidate reaches the server but fails `login` is left, after
`connect` returns failure, with its connection handle pointing at a
live, unauthenticated (partially-authenticated) connection object — the
claim that no usable session state is left is false. -/
theorem connect_failure_leaves_live_connection :
    (connect [("imap.example.com", AttemptOutcome.loginFail "AUTH failed")]
        ⟨none, none, []⟩).1 = false
    ∧ (connect [("imap.example.com", AttemptOutcome.loginFail "AUTH failed")]
        ⟨none, none, []⟩).2.connection = some ⟨"imap.example.com", false⟩ :=
  ⟨rfl, rfl⟩

/-- C5 amended: whenever `connect` returns failure, no authenticated
session is pinned: the server address is unchanged and the connection
handle is either exactly what it was before the call or points at a
live, unauthenticated connection left over from a candidate whose
TCP/SSL setup succeeded but whose login failed. -/
theorem connect_failure_no_authenticated_session
    (candidates : List (String × AttemptOutcome)) (st : ClientState)
    (hfail : (connect candidates st).1 = false) :
    (connect candidates st).2.server_address = st.server_address
    ∧ ((connect candidates st).2.connection = st.connection
        ∨ ∃ server err, (server, AttemptOutcome.loginFail err) ∈ candidates
            ∧ (connect candidates st).2.connection = some ⟨server, false⟩) := by
  unfold connect at hfail ⊢
  exact connectLoop_failure_connection candidates _ hfail

/-- Witness for C5 (amended form) at a concrete failing candidate
list. -/
theorem connect_failure_no_authenticated_session_witness :
    (connect [("mail.example.com", AttemptOutcome.estabFail "timed out")]
        ⟨none, none, []⟩).2.server_address
      = (⟨none, none, []⟩ : ClientState).server_address
    ∧ ((connect [("mail.example.com", AttemptOutcome.estabFail "timed out")]
          ⟨none, none, []⟩).2.connection = (⟨none, none, []⟩ : ClientState).connection
        ∨ ∃ server err,
            (server, AttemptOutcome.loginFail err)
              ∈ [("mail.example.com", AttemptOutcome.estabFail "timed out")]
            ∧ (connect [("mail.example.com", AttemptOutcome.estabFail "timed out")]
                ⟨none, none, []⟩).2.connection = some ⟨server, false⟩) :=
  connect_failure_no_authenticated_session
    [("mail.example.com", AttemptOutcome.estabFail "timed out")]
    ⟨none, none, []⟩ rfl

/-! ## C7 -/

/-- C7 counterexample: with only the start bound set the criteria string
the code sends is parenthesized, `(SINCE "01-Jan-2020")`, not the bare
`SINCE "01-Jan-2020"` the claim states. -/
theorem search_criteria_is_parenthesized :
    buildSearchCriteria (some ⟨2020, 1, 1⟩) none = "(SINCE \"01-Jan-2020\")"
    ∧ claimSearchCriteria (some ⟨2020, 1, 1⟩) none = "SINCE \"01-Jan-2020\""
    ∧ buildSearchCriteria (some ⟨2020, 1, 1⟩) none
        ≠ claimSearchCriteria (some ⟨2020, 1, 1⟩) none := by
  refine ⟨by decide, by decide, by decide⟩

/-- C7 amended: the criteria string is `(SINCE "DD-Mon-YYYY")` when only
the start bound is set, `(BEFORE "DD-Mon-YYYY")` when only the end bound
is set, the two joined by a single space when both are set, and `ALL`
when neither is set; and the search is always issued as a UID search. -/
theorem search_criteria_shape (s e : PyDate) :
    buildSearchCriteria (some s) none = "(SINCE \"" ++ fmtImapDate s ++ "\")"
    ∧ buildSearchCriteria none (some e) = "(BEFORE \"" ++ fmtImapDate e ++ "\")"
    ∧ buildSearchCriteria (some s) (some e)
        = "(SINCE \"" ++ fmtImapDate s ++ "\")" ++ " "
            ++ ("(BEFORE \"" ++ fmtImapDate e ++ "\")")
    ∧ buildSearchCriteria none none = "ALL"
    ∧ ∀ sd ed, (fetch_email_ids_search sd ed).viaUid = true := by
  refine ⟨?_, ?_, ?_, rfl, fun _ _ => rfl⟩
  · simp [buildSearchCriteria, joinSpace]
  · simp [buildSearchCriteria, joinSpace]
  · simp [buildSearchCriteria, joinSpace]

/-! ## C8 -/

/-- C8 is refuted by the code (`code_bug`): the loop body of
`timed_input` contains no timeout check (`start_time` and `timeout` are
dead), so when no key arrives the call does not return after any number
of loop iterations — in particular it never returns the default answer,
contradicting both the claim and the function's own docstring. -/
theorem timed_input_never_times_out (keys : Nat → Option Char) (timeout : Nat)
    (default : String) (fuel : Nat) (hquiet : ∀ n, keys n = none) :
    timed_input keys timeout default fuel = none := by
  suffices h : ∀ f n acc, timedInputLoop keys default f n acc = none from
    h fuel 0 ""
  intro f
  induction f with
  | zero => intro n acc; rfl
  | succ k ih =>
    intro n acc
    simp [timedInputLoop, hquiet n, ih]

/-- Witness for C8: with no key ever pending, 1000 loop iterations
produce no return value. -/
theorem timed_input_never_times_out_witness :
    timed_input (fun _ => none) 10 "y" 1000 = none :=
  timed_input_never_times_out (fun _ => none) 10 "y" 1000 (fun _ => rfl)

/-! ## C10 -/

/-- C10: with no connection, `list_folders` returns the empty list and
`fetch_message_id` returns none, whereas `fetch_email_ids` and
`fetch_email_content` raise a `RuntimeError`; none of the four attempts
any server I/O in that state. -/
theorem no_connection_error_channels (replyOk : Bool) (names : List String)
    (mid : Option String) (uids : List String) (body : Option (List Nat)) :
    list_folders_run none replyOk names = (PyResult.ok [], false)
    ∧ fetch_message_id_run none mid = (PyResult.ok none, false)
    ∧ fetch_email_ids_run none uids
        = (PyResult.exn "Not connected to IMAP server.", false)
    ∧ fetch_email_content_run none body = (PyResult.exn "Not connected.", false) :=
  ⟨rfl, rfl, rfl, rfl⟩

/-! ## C4 -/

/-- Helper: on ASCII characters the code's per-character sanitation rule
and the claim's `[A-Za-z0-9._-]` rule agree (checked by evaluation over
all 128 code points). -/
theorem pySanitizeChar_eq_claim_of_ascii (c : Char) (h : c.toNat < 128) :
    pySanitizeChar c = claimSanitizeChar c := by
  have hall : ∀ n, n < 128 →
      pySanitizeChar (Char.ofNat n) = claimSanitizeChar (Char.ofNat n) := by decide
  have hc := hall c.toNat h
  rwa [Char.ofNat_toNat] at hc

/-- Helper: comparing a character of `INBOX.`/`INBOX/` against an
uppercased ASCII character equals the case-insensitive comparison
(checked over all 128 code points and the seven prefix characters). -/
theorem upper_eq_ci_on_ascii (b : Char) (hb : b.toNat < 128) (x : Char)
    (hx : x ∈ inboxPrefixChars) :
    (decide (x = Char.toUpper b)) = eqCaseInsensitive x b := by
  have hall : ∀ n, n < 128 → ∀ x ∈ inboxPrefixChars,
      (decide (x = Char.toUpper (Char.ofNat n)))
        = eqCaseInsensitive x (Char.ofNat n) := by decide
  have hc := hall b.toNat hb x hx
  rwa [Char.ofNat_toNat] at hc

/-- Helper: for a needle drawn from the prefix characters and an ASCII
haystack, prefix-matching against the uppercased haystack coincides with
the case-insensitive prefix match. -/
theorem startsWith_upper_eq_ci (needle hay : List Char)
    (hn : ∀ x ∈ needle, x ∈ inboxPrefixChars)
    (hh : ∀ c ∈ hay, c.toNat < 128) :
    startsWithChars needle (hay.map Char.toUpper) = startsWithCI needle hay := by
  induction needle generalizing hay with
  | nil => cases hay <;> rfl
  | cons x xs ih =>
    cases hay with
    | nil => rfl
    | cons b bs =>
      simp only [List.map_cons, startsWithChars, startsWithCI]
      rw [upper_eq_ci_on_ascii b (hh b (List.mem_cons_self _ _))
            x (hn x (List.mem_cons_self _ _)),
        ih bs (fun y hy => hn y (List.mem_cons_of_mem _ hy))
          (fun c hc => hh c (List.mem_cons_of_mem _ hc))]

/-- C4 counterexample: for the folder name "é" (a single non-ASCII
letter) the code keeps the character — Python's `\w` is Unicode-aware —
while the claim's `[A-Za-z0-9._-]` rule demands `_`; the claim as stated
is false. -/
theorem sanitize_keeps_nonascii_letter :
    displayFolderSegment "é" = "é"
    ∧ claimFolderSegment "é" = "_"
    ∧ displayFolderSegment "é" ≠ claimFolderSegment "é" :=
  ⟨by decide, by decide, by decide⟩

/-- C4 amended: for every folder display name consisting of ASCII
characters, the on-disk segment equals the claim's description — strip a
leading `INBOX.`/`INBOX/` prefix case-insensitively, then replace every
character outside `[A-Za-z0-9._-]` with `_`. -/
theorem folder_segment_matches_claim_on_ascii (folder : String)
    (hascii : ∀ c ∈ folder.data, c.toNat < 128) :
    displayFolderSegment folder = claimFolderSegment folder := by
  have hc1 : startsWithChars "INBOX.".data (folder.data.map Char.toUpper)
      = startsWithCI "INBOX.".data folder.data :=
    startsWith_upper_eq_ci _ _ (by decide) hascii
  have hc2 : startsWithChars "INBOX/".data (folder.data.map Char.toUpper)
      = startsWithCI "INBOX/".data folder.data :=
    startsWith_upper_eq_ci _ _ (by decide) hascii
  show sanitize_filename
      (if startsWithChars "INBOX.".data (strUpper folder).data
          || startsWithChars "INBOX/".data (strUpper folder).data then
        strDrop 6 folder
      else folder)
    = String.mk
        ((if startsWithCI "INBOX.".data folder.data
            || startsWithCI "INBOX/".data folder.data then
            strDrop 6 folder
          else folder).data.map claimSanitizeChar)
  have hdata : (strUpper folder).data = folder.data.map Char.toUpper := rfl
  rw [hdata, hc1, hc2]
  cases hcond : (startsWithCI "INBOX.".data folder.data
      || startsWithCI "INBOX/".data folder.data) with
  | true =>
    simp only [if_pos]
    show String.mk ((strDrop 6 folder).data.map pySanitizeChar)
      = String.mk ((strDrop 6 folder).data.map claimSanitizeChar)
    congr 1
    refine List.map_congr_left (fun c hc => pySanitizeChar_eq_claim_of_ascii c ?_)
    exact hascii c (List.drop_subset _ _ hc)
  | false =>
    simp only [Bool.false_eq_true, if_neg, not_false_eq_true]
    show String.mk (folder.data.map pySanitizeChar)
      = String.mk (folder.data.map claimSanitizeChar)
    congr 1
    exact List.map_congr_left (fun c hc => pySanitizeChar_eq_claim_of_ascii c (hascii c hc))

/-- Witness for C4 (amended form) at a concrete ASCII folder name with a
prefix to strip and a space to replace. -/
theorem folder_segment_matches_claim_on_ascii_witness :
    displayFolderSegment "INBOX.Sent Items" = claimFolderSegment "INBOX.Sent Items" :=
  folder_segment_matches_claim_on_ascii "INBOX.Sent Items" (by decide)
